import Mathlib

/-
Formal model of the theming engine in ui/theme/theme.py (Serial-Port-Splitter).

The Python module defines static color / font / dimension tables, per-category
stylesheet builders (class AppStyles), an icon renderer (class IconManager), a
widget factory (class ThemeManager) and a semantic color resolver
(ThemeManager.get_semantic_color).  All of this logic is pure: it reads only
module-level constants, so it is embedded here as plain functions.

Stylesheets are embedded structurally: every block of the Python f-string
(one per selector such as QPushButton or QPushButton:disabled) becomes a Rule
with the same declarations in the same order, with values equal to the strings
the f-string interpolation produces.  The cascade the Qt toolkit applies to a
stylesheet (a pseudo-state rule is more specific than a bare selector rule;
among applicable rules of equal specificity the later one wins) is modelled by
effectiveValue below, so that per-state effective properties can be stated.
-/

namespace AppColors

def BACKGROUND_DISABLED : String := "#f4f7fc"

def BORDER_DEFAULT : String := "#a0a0a0"

def BORDER_FOCUS : String := "#0078d7"

def BORDER_PRESSED : String := "#005a9e"

def BORDER_DISABLED : String := "#d0d0d0"

def BORDER_LIGHT : String := "#e3e3e3"

def BUTTON_DEFAULT : String := "#f0f0f0"

def BUTTON_HOVER : String := "#e5f1fb"

def BUTTON_PRESSED : String := "#cce4f7"

def TEXT_DEFAULT : String := "#000000"

def TEXT_DISABLED : String := "#6d6d6d"

def TEXT_WHITE : String := "#ffffff"

def ICON_DEFAULT : String := "#000000"

def ICON_HOVER : String := "#0078d7"

def ICON_PRESSED : String := "#005a9e"

def ICON_DISABLED : String := "#6d6d6d"

def ACCENT_BLUE : String := "#0078d7"

def HOT_TRACKING : String := "#0066cc"

def SUCCESS_PRIMARY : String := "#107c10"

def SUCCESS_BACKGROUND : String := "#dff6dd"

def SUCCESS_BORDER : String := "#0e5a0e"

def WARNING_PRIMARY : String := "#ffb900"

def WARNING_BACKGROUND : String := "#fff4ce"

def WARNING_BORDER : String := "#d39400"

def ERROR_PRIMARY : String := "#e81123"

def ERROR_BACKGROUND : String := "#fde7e9"

def ERROR_BORDER : String := "#b4161c"

def INFO_PRIMARY : String := "#0078d7"

def INFO_BACKGROUND : String := "#e5f1fb"

def INFO_BORDER : String := "#005a9e"

end AppColors

namespace AppFonts

def DEFAULT_FAMILY : String := "Segoe UI"

def DEFAULT_SIZE : String := "9pt"

def SMALL_SIZE : String := "8pt"

end AppFonts

namespace AppDimensions

def BUTTON_WIDTH_STANDARD : Int := 75

def BUTTON_HEIGHT_STANDARD : Int := 23

def BUTTON_HEIGHT_SMALL : Int := 21

def BUTTON_HEIGHT_LARGE : Int := 28

def ICON_SIZE_SMALL : Int := 16

def ICON_SIZE_MEDIUM : Int := 20

def ICON_SIZE_LARGE : Int := 24

def ICON_SIZE_XLARGE : Int := 32

def BORDER_WIDTH_STANDARD : Int := 1

def BORDER_WIDTH_THICK : Int := 2

def BORDER_RADIUS_STANDARD : Int := 0

def BORDER_RADIUS_MODERN : Int := 2

def PADDING_SMALL : String := "3px"

def PADDING_MEDIUM : String := "5px"

def PADDING_BUTTON_STANDARD : String := "3px 8px"

def PADDING_BUTTON_LARGE : String := "5px 12px"

def PADDING_BUTTON_COMPACT : String := "2px 6px"

end AppDimensions

/-- Renders an integer dimension the way the f-strings do, e.g. 75px. -/
def px (n : Int) : String := toString n ++ "px"

/-- Renders a border declaration value the way the f-strings do,
e.g. 1px solid #a0a0a0. -/
def borderSolid (w : Int) (c : String) : String := toString w ++ "px solid " ++ c

/-- Pseudo-state part of a stylesheet selector (QPushButton:hover etc.). -/
inductive PseudoState
| hover
| pressed
| focus
| disabled
deriving DecidableEq

/-- One property declaration inside a stylesheet block. -/
structure Decl where
  prop : String
  value : String
deriving DecidableEq

/-- One stylesheet block: selector pseudo-state (none for the bare widget
selector) and its declarations in source order. -/
structure Rule where
  pseudo : Option PseudoState
  decls : List Decl
deriving DecidableEq

namespace AppStyles

/-- The base_style blocks of AppStyles.button (theme.py lines 289-318). -/
def buttonBase : List Rule :=
  [⟨none,
    [⟨"background-color", AppColors.BUTTON_DEFAULT⟩,
     ⟨"color", AppColors.TEXT_DEFAULT⟩,
     ⟨"padding", AppDimensions.PADDING_BUTTON_STANDARD⟩,
     ⟨"border", borderSolid AppDimensions.BORDER_WIDTH_STANDARD AppColors.BORDER_DEFAULT⟩,
     ⟨"font-family", AppFonts.DEFAULT_FAMILY⟩,
     ⟨"font-size", AppFonts.DEFAULT_SIZE⟩,
     ⟨"min-width", px AppDimensions.BUTTON_WIDTH_STANDARD⟩,
     ⟨"min-height", px AppDimensions.BUTTON_HEIGHT_STANDARD⟩,
     ⟨"border-radius", px AppDimensions.BORDER_RADIUS_STANDARD⟩]⟩,
   ⟨some .hover,
    [⟨"background-color", AppColors.BUTTON_HOVER⟩,
     ⟨"border", borderSolid AppDimensions.BORDER_WIDTH_STANDARD AppColors.BORDER_FOCUS⟩]⟩,
   ⟨some .pressed,
    [⟨"background-color", AppColors.BUTTON_PRESSED⟩,
     ⟨"border", borderSolid AppDimensions.BORDER_WIDTH_STANDARD AppColors.BORDER_PRESSED⟩]⟩,
   ⟨some .focus,
    [⟨"border", borderSolid AppDimensions.BORDER_WIDTH_THICK AppColors.BORDER_FOCUS⟩,
     ⟨"outline", "none"⟩]⟩,
   ⟨some .disabled,
    [⟨"background-color", AppColors.BACKGROUND_DISABLED⟩,
     ⟨"color", AppColors.TEXT_DISABLED⟩,
     ⟨"border", borderSolid AppDimensions.BORDER_WIDTH_STANDARD AppColors.BORDER_DISABLED⟩]⟩]

/-- AppStyles.button (theme.py lines 286-362): base blocks, then the blocks
appended for the primary / success / danger variants. -/
def button (style_variant : String) : List Rule :=
  let base_style := buttonBase
  if style_variant == "primary" then
    base_style ++
      [⟨none,
        [⟨"background-color", AppColors.ACCENT_BLUE⟩,
         ⟨"color", AppColors.TEXT_WHITE⟩,
         ⟨"border", borderSolid AppDimensions.BORDER_WIDTH_STANDARD AppColors.ACCENT_BLUE⟩]⟩,
       ⟨some .hover,
        [⟨"background-color", AppColors.HOT_TRACKING⟩,
         ⟨"border", borderSolid AppDimensions.BORDER_WIDTH_STANDARD AppColors.HOT_TRACKING⟩]⟩,
       ⟨some .pressed,
        [⟨"background-color", AppColors.BORDER_PRESSED⟩,
         ⟨"border", borderSolid AppDimensions.BORDER_WIDTH_STANDARD AppColors.BORDER_PRESSED⟩]⟩]
  else if style_variant == "success" then
    base_style ++
      [⟨none,
        [⟨"background-color", AppColors.SUCCESS_PRIMARY⟩,
         ⟨"color", AppColors.TEXT_WHITE⟩,
         ⟨"border", borderSolid AppDimensions.BORDER_WIDTH_STANDARD AppColors.SUCCESS_BORDER⟩]⟩,
       ⟨some .hover,
        [⟨"background-color", AppColors.SUCCESS_BORDER⟩,
         ⟨"border", borderSolid AppDimensions.BORDER_WIDTH_STANDARD AppColors.SUCCESS_BORDER⟩]⟩]
  else if style_variant == "danger" then
    base_style ++
      [⟨none,
        [⟨"background-color", AppColors.ERROR_PRIMARY⟩,
         ⟨"color", AppColors.TEXT_WHITE⟩,
         ⟨"border", borderSolid AppDimensions.BORDER_WIDTH_STANDARD AppColors.ERROR_BORDER⟩]⟩,
       ⟨some .hover,
        [⟨"background-color", AppColors.ERROR_BORDER⟩,
         ⟨"border", borderSolid AppDimensions.BORDER_WIDTH_STANDARD AppColors.ERROR_BORDER⟩]⟩]
  else
    base_style

/-- AppStyles.button_large (theme.py lines 364-396). -/
def button_large : List Rule :=
  [⟨none,
    [⟨"background-color", AppColors.BUTTON_DEFAULT⟩,
     ⟨"color", AppColors.TEXT_DEFAULT⟩,
     ⟨"padding", AppDimensions.PADDING_BUTTON_LARGE⟩,
     ⟨"border", borderSolid AppDimensions.BORDER_WIDTH_STANDARD AppColors.BORDER_DEFAULT⟩,
     ⟨"font-family", AppFonts.DEFAULT_FAMILY⟩,
     ⟨"font-size", AppFonts.DEFAULT_SIZE⟩,
     ⟨"min-width", px (AppDimensions.BUTTON_WIDTH_STANDARD + 20)⟩,
     ⟨"min-height", px AppDimensions.BUTTON_HEIGHT_LARGE⟩,
     ⟨"border-radius", px AppDimensions.BORDER_RADIUS_STANDARD⟩]⟩,
   ⟨some .hover,
    [⟨"background-color", AppColors.BUTTON_HOVER⟩,
     ⟨"border", borderSolid AppDimensions.BORDER_WIDTH_STANDARD AppColors.BORDER_FOCUS⟩]⟩,
   ⟨some .pressed,
    [⟨"background-color", AppColors.BUTTON_PRESSED⟩,
     ⟨"border", borderSolid AppDimensions.BORDER_WIDTH_STANDARD AppColors.BORDER_PRESSED⟩]⟩,
   ⟨some .focus,
    [⟨"border", borderSolid AppDimensions.BORDER_WIDTH_THICK AppColors.BORDER_FOCUS⟩,
     ⟨"outline", "none"⟩]⟩,
   ⟨some .disabled,
    [⟨"background-color", AppColors.BACKGROUND_DISABLED⟩,
     ⟨"color", AppColors.TEXT_DISABLED⟩,
     ⟨"border", borderSolid AppDimensions.BORDER_WIDTH_STANDARD AppColors.BORDER_DISABLED⟩]⟩]

/-- AppStyles.button_compact (theme.py lines 398-427). -/
def button_compact : List Rule :=
  [⟨none,
    [⟨"background-color", AppColors.BUTTON_DEFAULT⟩,
     ⟨"color", AppColors.TEXT_DEFAULT⟩,
     ⟨"padding", AppDimensions.PADDING_BUTTON_COMPACT⟩,
     ⟨"font-size", AppFonts.SMALL_SIZE⟩,
     ⟨"min-height", px AppDimensions.BUTTON_HEIGHT_SMALL⟩,
     ⟨"border-radius", px AppDimensions.BORDER_RADIUS_STANDARD⟩]⟩,
   ⟨some .hover,
    [⟨"background-color", AppColors.BUTTON_HOVER⟩,
     ⟨"border", borderSolid AppDimensions.BORDER_WIDTH_STANDARD AppColors.BORDER_FOCUS⟩]⟩,
   ⟨some .pressed,
    [⟨"background-color", AppColors.BUTTON_PRESSED⟩,
     ⟨"border", borderSolid AppDimensions.BORDER_WIDTH_STANDARD AppColors.BORDER_PRESSED⟩]⟩,
   ⟨some .focus,
    [⟨"border", borderSolid AppDimensions.BORDER_WIDTH_THICK AppColors.BORDER_FOCUS⟩,
     ⟨"outline", "none"⟩]⟩,
   ⟨some .disabled,
    [⟨"background-color", AppColors.BACKGROUND_DISABLED⟩,
     ⟨"color", AppColors.TEXT_DISABLED⟩,
     ⟨"border", borderSolid AppDimensions.BORDER_WIDTH_STANDARD AppColors.BORDER_DISABLED⟩]⟩]

/-- AppStyles.icon_button (theme.py lines 429-459). -/
def icon_button : List Rule :=
  [⟨none,
    [⟨"background-color", "transparent"⟩,
     ⟨"border", borderSolid AppDimensions.BORDER_WIDTH_STANDARD "transparent"⟩,
     ⟨"padding", AppDimensions.PADDING_SMALL⟩,
     ⟨"color", AppColors.TEXT_DEFAULT⟩,
     ⟨"min-width", px (AppDimensions.ICON_SIZE_MEDIUM + 8)⟩,
     ⟨"min-height", px (AppDimensions.ICON_SIZE_MEDIUM + 8)⟩,
     ⟨"border-radius", px AppDimensions.BORDER_RADIUS_MODERN⟩]⟩,
   ⟨some .hover,
    [⟨"background-color", AppColors.INFO_BACKGROUND⟩,
     ⟨"border", borderSolid AppDimensions.BORDER_WIDTH_STANDARD AppColors.BORDER_LIGHT⟩]⟩,
   ⟨some .pressed,
    [⟨"background-color", AppColors.BUTTON_PRESSED⟩,
     ⟨"border", borderSolid AppDimensions.BORDER_WIDTH_STANDARD AppColors.BORDER_FOCUS⟩]⟩,
   ⟨some .focus,
    [⟨"border", borderSolid AppDimensions.BORDER_WIDTH_STANDARD AppColors.BORDER_FOCUS⟩,
     ⟨"outline", "none"⟩]⟩,
   ⟨some .disabled,
    [⟨"color", AppColors.ICON_DISABLED⟩,
     ⟨"background-color", "transparent"⟩,
     ⟨"border", borderSolid AppDimensions.BORDER_WIDTH_STANDARD "transparent"⟩]⟩]

/-- AppStyles.notification (theme.py lines 819-841): the type_colors table
keyed by notification type, with the info entry as the dict-get default,
then the single QLabel block. -/
def notification (notification_type : String) : List Rule :=
  let type_colors : List (String × (String × String × String)) :=
    [("success", (AppColors.SUCCESS_BACKGROUND, AppColors.SUCCESS_BORDER, AppColors.SUCCESS_PRIMARY)),
     ("warning", (AppColors.WARNING_BACKGROUND, AppColors.WARNING_BORDER, AppColors.WARNING_PRIMARY)),
     ("error", (AppColors.ERROR_BACKGROUND, AppColors.ERROR_BORDER, AppColors.ERROR_PRIMARY)),
     ("info", (AppColors.INFO_BACKGROUND, AppColors.INFO_BORDER, AppColors.INFO_PRIMARY))]
  let c := (type_colors.lookup notification_type).getD
    (AppColors.INFO_BACKGROUND, AppColors.INFO_BORDER, AppColors.INFO_PRIMARY)
  [⟨none,
    [⟨"background-color", c.1⟩,
     ⟨"color", c.2.2⟩,
     ⟨"border", borderSolid AppDimensions.BORDER_WIDTH_STANDARD c.2.1⟩,
     ⟨"border-radius", px AppDimensions.BORDER_RADIUS_MODERN⟩,
     ⟨"padding", AppDimensions.PADDING_MEDIUM⟩,
     ⟨"font-family", AppFonts.DEFAULT_FAMILY⟩,
     ⟨"font-size", AppFonts.DEFAULT_SIZE⟩]⟩]

end AppStyles

/-- Specificity of a selector in the Qt stylesheet cascade: a pseudo-state
selector is more specific than the bare widget selector. -/
def selSpec : Option PseudoState → Nat
| none => 0
| some _ => 1

/-- Whether a rule with the given selector pseudo-state applies to a widget
currently in state st (the bare selector applies in every state). -/
def selApplies (st : Option PseudoState) : Option PseudoState → Bool
| none => true
| some p => st == some p

/-- Last declaration for a property inside one block (within a block, the
later declaration wins, as in CSS). -/
def declValue (ds : List Decl) (p : String) : Option String :=
  ((ds.filter (fun d => d.prop == p)).getLast?).map Decl.value

/-- Effective value of a property for a widget in state st under a
stylesheet: scan the rules in source order, keep the applicable declaration
of highest specificity, later rules winning ties.  This is the cascade the
Qt toolkit applies to the stylesheets the Python code installs. -/
def effectiveValue (sheet : List Rule) (st : Option PseudoState) (p : String) : Option String :=
  (sheet.foldl
    (fun acc r =>
      if selApplies st r.pseudo then
        match declValue r.decls p with
        | some v =>
          match acc with
          | none => some (selSpec r.pseudo, v)
          | some c => if c.1 ≤ selSpec r.pseudo then some (selSpec r.pseudo, v) else some c
        | none => acc
      else acc)
    none).map Prod.snd

/-- Pointer interaction a control may currently receive. -/
inductive Interaction
| idle
| hovered
| pressedDown
deriving DecidableEq

/-- The pseudo-state a widget presents to the stylesheet cascade: a disabled
widget is in the disabled state regardless of pointer interaction (Qt never
gives hover or pressed styling to a disabled widget). -/
def activePseudo (enabled : Bool) : Interaction → Option PseudoState
| .idle => if enabled then none else some .disabled
| .hovered => if enabled then some .hover else some .disabled
| .pressedDown => if enabled then some .pressed else some .disabled

/-- QSize: integer width and height. -/
structure QSize where
  width : Int
  height : Int
deriving DecidableEq

/-- Python int() applied to a rational: truncation toward zero. -/
def pyInt (q : ℚ) : Int := if 0 ≤ q then ⌊q⌋ else -⌊-q⌋

/-- Python str.upper on one character (ASCII case mapping). -/
def pyCharUpper (c : Char) : Char :=
  if 97 ≤ c.toNat ∧ c.toNat ≤ 122 then Char.ofNat (c.toNat - 32) else c

/-- Python str.upper, applied character-wise. -/
def pyUpper (s : String) : String := String.mk (s.data.map pyCharUpper)

namespace IconManager

/-- IconManager.get_scaled_size (theme.py lines 995-1008): the scale factor
is multiplied by the primary screen device pixel ratio when one is available
(density = none models the branches where no QApplication or screen exists),
then scaled_size = int(base_size * scale_factor), returned as a square
QSize. -/
def get_scaled_size (base_size : Int) (scale_factor : ℚ) (density : Option ℚ) : QSize :=
  let s :=
    match density with
    | some d => scale_factor * d
    | none => scale_factor
  let scaled_size := pyInt (base_size * s)
  ⟨scaled_size, scaled_size⟩

end IconManager

/-- One chunk of an SVG template string: literal text or a named
str.format placeholder. -/
inductive Chunk
| lit : String → Chunk
| ph : String → Chunk
deriving DecidableEq

/-- Python str.format(color=c) on a template: substitutes c for every
placeholder named color; any other placeholder name raises (KeyError),
modelled as none.  Whether it raises depends only on the template, never on
the substituted color string. -/
def pyFormat : List Chunk → String → Option String
| [], _ => some ""
| .lit s :: rest, color =>
  match pyFormat rest color with
  | some r => some (s ++ r)
  | none => none
| .ph n :: rest, color =>
  if n == "color" then
    match pyFormat rest color with
    | some r => some (color ++ r)
    | none => none
  else none

/-- A template formats successfully iff every placeholder is named color. -/
def templateOk : List Chunk → Bool
| [] => true
| .lit _ :: rest => templateOk rest
| .ph n :: rest => n == "color" && templateOk rest

/-- QPixmap produced from SVG data at a given size (transparent fill then
render; neither Qt call raises, so this is total). -/
structure QPixmap where
  width : Int
  height : Int
  svg : String
deriving DecidableEq

/-- A QIcon holding the four interaction-state pixmaps added by
IconManager.create_svg_icon. -/
structure QIcon where
  normal : QPixmap
  hover : QPixmap
  pressed : QPixmap
  disabled : QPixmap
deriving DecidableEq

namespace IconManager

/-- IconManager._svg_to_pixmap (theme.py lines 1050-1063): builds a pixmap
of exactly the requested size and renders the SVG data into it. -/
def svg_to_pixmap (svg_data : String) (size : QSize) : QPixmap :=
  ⟨size.width, size.height, svg_data⟩

/-- IconManager.create_svg_icon (theme.py lines 1010-1038): formats the same
template four times (requested color, then ICON_HOVER, ICON_PRESSED,
ICON_DISABLED), rasterizing each result at the same size; a format failure
anywhere aborts the whole call (none), mirroring exception propagation. -/
def create_svg_icon (svg_template : List Chunk) (color : String) (size : QSize) : Option QIcon :=
  match pyFormat svg_template color with
  | none => none
  | some svg_data =>
    let normal_pixmap := svg_to_pixmap svg_data size
    match pyFormat svg_template AppColors.ICON_HOVER with
    | none => none
    | some hover_svg =>
      let hover_pixmap := svg_to_pixmap hover_svg size
      match pyFormat svg_template AppColors.ICON_PRESSED with
      | none => none
      | some pressed_svg =>
        let pressed_pixmap := svg_to_pixmap pressed_svg size
        match pyFormat svg_template AppColors.ICON_DISABLED with
        | none => none
        | some disabled_svg =>
          some ⟨normal_pixmap, hover_pixmap, pressed_pixmap, svg_to_pixmap disabled_svg size⟩

end IconManager

/-- A QPushButton as configured by ThemeManager.create_button: its text, the
stylesheet installed on it, the enabled flag, and whether a callback was
connected to clicked. -/
structure Button where
  text : String
  styleSheet : List Rule
  enabled : Bool
  connected : Bool
deriving DecidableEq

/-- An icon button as configured by ThemeManager.create_icon_button. -/
structure IconButton where
  icon : Option QIcon
  iconSize : Option QSize
  styleSheet : List Rule
  toolTip : Option String
deriving DecidableEq

/-- Modelled from the spec: the icon-template registry class AppIcons
(src/ui/theme/icons/icons.py is not present under src/).  The spec describes
a fixed set of vector-image templates, each with a single substitutable
color placeholder; the source file references the DROPDOWN_ARROW and
CHECKBOX_CHECK members.  Lookup of an attribute name models getattr. -/
def appIcons : List (String × List Chunk) :=
  [("DROPDOWN_ARROW", [Chunk.lit "<svg viewBox=0 0 8 8><path fill=", Chunk.ph "color", Chunk.lit " d=M0 2l4 4 4-4z/></svg>"]),
   ("CHECKBOX_CHECK", [Chunk.lit "<svg viewBox=0 0 12 12><polyline stroke=", Chunk.ph "color", Chunk.lit " points=2,6 5,9 10,3/></svg>"])]

namespace ThemeManager

/-- ThemeManager.create_button (theme.py lines 1070-1091): dispatch on
style_type (large / compact / icon / anything else meaning standard), with
the variant consulted only on the standard path; then the enabled flag is
set and the callback connected when provided. -/
def create_button (text : String) (callback : Bool) (style_type : String)
    (variant : String) (enabled : Bool) : Button :=
  let sheet :=
    if style_type == "large" then AppStyles.button_large
    else if style_type == "compact" then AppStyles.button_compact
    else if style_type == "icon" then AppStyles.icon_button
    else AppStyles.button variant
  ⟨text, sheet, enabled, callback⟩

/-- The size_map of ThemeManager.create_icon_button (theme.py lines
1179-1184). -/
def size_map : List (String × Int) :=
  [("small", AppDimensions.ICON_SIZE_SMALL),
   ("medium", AppDimensions.ICON_SIZE_MEDIUM),
   ("large", AppDimensions.ICON_SIZE_LARGE),
   ("xlarge", AppDimensions.ICON_SIZE_XLARGE)]

/-- Base pixel size for a named size tier (theme.py line 1185):
size_map.get(size, ICON_SIZE_MEDIUM). -/
def icon_button_base_size (size : String) : Int :=
  (size_map.lookup size).getD AppDimensions.ICON_SIZE_MEDIUM

/-- ThemeManager.create_icon_button (theme.py lines 1174-1203): resolves the
base size with a medium fallback, scales it, looks the upper-cased icon name
up in the registry (getattr with default None); when a template is found the
icon is rendered and attached (an exception there propagates, modelled as
none), otherwise the icon is silently skipped; the icon_button stylesheet
and optional tooltip are always applied and the button returned. -/
def create_icon_button (registry : List (String × List Chunk)) (icon_name : String)
    (tooltip : String) (size : String) (density : Option ℚ) : Option IconButton :=
  let base_size := icon_button_base_size size
  let icon_size := IconManager.get_scaled_size base_size 1 density
  match registry.lookup (pyUpper icon_name) with
  | some icon_template =>
    match IconManager.create_svg_icon icon_template AppColors.ICON_DEFAULT icon_size with
    | some icon =>
      some ⟨some icon, some icon_size, AppStyles.icon_button,
            if tooltip == "" then none else some tooltip⟩
    | none => none
  | none =>
    some ⟨none, none, AppStyles.icon_button,
          if tooltip == "" then none else some tooltip⟩

/-- ThemeManager.get_semantic_color (theme.py lines 1364-1390): nested
dict lookup; an unknown semantic_type falls back to the info entry, an
unknown element falls back to INFO_PRIMARY. -/
def get_semantic_color (semantic_type : String) (element : String) : String :=
  let success_entry : List (String × String) :=
    [("primary", AppColors.SUCCESS_PRIMARY),
     ("background", AppColors.SUCCESS_BACKGROUND),
     ("border", AppColors.SUCCESS_BORDER)]
  let warning_entry : List (String × String) :=
    [("primary", AppColors.WARNING_PRIMARY),
     ("background", AppColors.WARNING_BACKGROUND),
     ("border", AppColors.WARNING_BORDER)]
  let error_entry : List (String × String) :=
    [("primary", AppColors.ERROR_PRIMARY),
     ("background", AppColors.ERROR_BACKGROUND),
     ("border", AppColors.ERROR_BORDER)]
  let info_entry : List (String × String) :=
    [("primary", AppColors.INFO_PRIMARY),
     ("background", AppColors.INFO_BACKGROUND),
     ("border", AppColors.INFO_BORDER)]
  let color_map : List (String × List (String × String)) :=
    [("success", success_entry),
     ("warning", warning_entry),
     ("error", error_entry),
     ("info", info_entry)]
  (((color_map.lookup semantic_type).getD info_entry).lookup element).getD AppColors.INFO_PRIMARY

end ThemeManager

/-- Effective value of a style property for a button, given the pointer
interaction it currently receives, through the cascade and the widget
enabled flag. -/
def buttonStateValue (b : Button) (i : Interaction) (p : String) : Option String :=
  effectiveValue b.styleSheet (activePseudo b.enabled i) p

/-- A sequence of style-resolution calls (the call history model used to
state freedom from hidden state): each call is resolved independently. -/
def styleCalls (f : String → List Rule) (history : List String) : List (List Rule) :=
  history.map f

/-- A well-formed demonstration template with a single color placeholder,
used to instantiate the renderer theorems. -/
def demoTemplate : List Chunk :=
  [Chunk.lit "<svg><path fill=", Chunk.ph "color", Chunk.lit "/></svg>"]

/-- A malformed demonstration template whose placeholder is not named color,
so str.format raises on it. -/
def badTemplate : List Chunk := [Chunk.ph "colour"]

theorem pyInt_intCast (n : Int) : pyInt (n : ℚ) = n := by
  unfold pyInt
  by_cases h : (0:ℚ) ≤ (n:ℚ)
  · simp [h, Int.floor_intCast]
  · rw [if_neg h, ← Int.cast_neg, Int.floor_intCast, neg_neg]

/-- Whether str.format succeeds on a template does not depend on the
substituted color: it succeeds exactly when every placeholder is named
color. -/
theorem pyFormat_isSome (t : List Chunk) (c : String) :
    (pyFormat t c).isSome = templateOk t := by
  induction t with
  | nil => rfl
  | cons hd tl ih =>
    cases hd with
    | lit s =>
      simp only [pyFormat, templateOk]
      cases hfmt : pyFormat tl c with
      | none => simp [hfmt] at ih; simp [ih]
      | some r => simp [hfmt] at ih; simp [ih]
    | ph n =>
      simp only [pyFormat, templateOk]
      by_cases hn : (n == "color") = true
      · rw [if_pos hn]
        cases hfmt : pyFormat tl c with
        | none => simp [hfmt] at ih; simp [ih, hn]
        | some r => simp [hfmt] at ih; simp [ih, hn]
      · simp at hn
        simp [hn]

theorem templateOk_some (t : List Chunk) (c : String) (h : templateOk t = true) :
    ∃ s, pyFormat t c = some s := by
  have hs := pyFormat_isSome t c
  rw [h] at hs
  exact Option.isSome_iff_exists.mp hs

theorem templateOk_none (t : List Chunk) (c : String) (h : templateOk t = false) :
    pyFormat t c = none := by
  have hs := pyFormat_isSome t c
  rw [h] at hs
  cases hfmt : pyFormat t c with
  | none => rfl
  | some r => rw [hfmt] at hs; simp at hs

/-- On a well-formed template the renderer always returns an icon whose four
state pixmaps all have exactly the requested dimensions. -/
theorem create_svg_icon_total (t : List Chunk) (c : String) (s : QSize)
    (h : templateOk t = true) :
    ∃ i, IconManager.create_svg_icon t c s = some i
      ∧ i.normal.width = s.width ∧ i.normal.height = s.height
      ∧ i.hover.width = s.width ∧ i.hover.height = s.height
      ∧ i.pressed.width = s.width ∧ i.pressed.height = s.height
      ∧ i.disabled.width = s.width ∧ i.disabled.height = s.height := by
  obtain ⟨s1, h1⟩ := templateOk_some t c h
  obtain ⟨s2, h2⟩ := templateOk_some t AppColors.ICON_HOVER h
  obtain ⟨s3, h3⟩ := templateOk_some t AppColors.ICON_PRESSED h
  obtain ⟨s4, h4⟩ := templateOk_some t AppColors.ICON_DISABLED h
  have hc : IconManager.create_svg_icon t c s
      = some ⟨⟨s.width, s.height, s1⟩, ⟨s.width, s.height, s2⟩,
              ⟨s.width, s.height, s3⟩, ⟨s.width, s.height, s4⟩⟩ := by
    simp [IconManager.create_svg_icon, h1, h2, h3, h4, IconManager.svg_to_pixmap]
  exact ⟨_, hc, rfl, rfl, rfl, rfl, rfl, rfl, rfl, rfl⟩

/-- Every template registered in the icon registry is well formed. -/
theorem appIcons_lookup_templateOk (k : String) (t : List Chunk)
    (h : appIcons.lookup k = some t) : templateOk t = true := by
  simp [appIcons, List.lookup] at h
  split at h
  · simp at h
    subst h
    decide
  · split at h
    · simp at h
      subst h
      decide
    · simp at h

/-- Claim C1, counterexample: requesting an icon button with the unknown icon
identifier nonexistent_icon does NOT fail with UnknownIconError — the
creation succeeds and a control is returned, so the claim as stated is false
at this input. -/
theorem c1_counterexample_unknown_icon_returns_control :
    (ThemeManager.create_icon_button appIcons "nonexistent_icon" "" "medium" none).isSome = true := by
  decide

/-- Claim C1 (amended): for every icon-button creation request whose icon
identifier (compared case-insensitively against the icon-template registry)
names no registered template, the creation does not fail: it returns a
control with no icon attached, and no UnknownIconError exists in the code. -/
theorem c1_unknown_icon_silent_fallback :
    ∀ (registry : List (String × List Chunk)) (icon_name tooltip sizeTier : String)
      (density : Option ℚ),
      registry.lookup (pyUpper icon_name) = none →
      ∃ b, ThemeManager.create_icon_button registry icon_name tooltip sizeTier density = some b
        ∧ b.icon = none := by
  intro registry icon_name tooltip sizeTier density h
  simp [ThemeManager.create_icon_button, h]

/-- Witness for the amended claim C1 at the concrete unknown identifier
nonexistent_icon. -/
theorem c1_unknown_icon_silent_fallback_witness :
    ∃ b, ThemeManager.create_icon_button appIcons "nonexistent_icon" "" "medium" none = some b
      ∧ b.icon = none :=
  c1_unknown_icon_silent_fallback appIcons "nonexistent_icon" "" "medium" none (by decide)

/-- Claim C2, counterexample: an icon render request with size -3 ≤ 0 does
NOT fail with SizeError — the renderer succeeds, so the claim as stated is
false at this input (no SizeError exists in the code and no size validation
is performed). -/
theorem c2_counterexample_nonpositive_size_succeeds :
    (IconManager.create_svg_icon demoTemplate "#000000" ⟨-3, -3⟩).isSome = true := by
  decide

/-- Claim C2 (amended): the icon renderer performs no size validation at
all: for every requested size, nonpositive sizes included, rendering a
well-formed template succeeds and never raises a SizeError (which does not
exist in the code); the pixmaps simply take the requested dimensions. -/
theorem c2_no_size_validation :
    ∀ (t : List Chunk) (c : String) (s : QSize),
      templateOk t = true →
      ∃ i, IconManager.create_svg_icon t c s = some i
        ∧ i.normal.width = s.width ∧ i.normal.height = s.height := by
  intro t c s h
  obtain ⟨i, hi, hw, hh, _⟩ := create_svg_icon_total t c s h
  exact ⟨i, hi, hw, hh⟩

/-- Witness for the amended claim C2 at the nonpositive size 0. -/
theorem c2_no_size_validation_witness :
    ∃ i, IconManager.create_svg_icon demoTemplate "#000000" ⟨0, 0⟩ = some i
      ∧ i.normal.width = (⟨0, 0⟩ : QSize).width
      ∧ i.normal.height = (⟨0, 0⟩ : QSize).height :=
  c2_no_size_validation demoTemplate "#000000" ⟨0, 0⟩ (by decide)

/-- Claim C3, counterexample: resolving the known category success with the
unrecognized element bogus yields INFO_PRIMARY, not the success category
primary value, so the element-fallback part of the claim is false. -/
theorem c3_counterexample_element_fallback_is_info_primary :
    ThemeManager.get_semantic_color "success" "bogus" = AppColors.INFO_PRIMARY
    ∧ AppColors.INFO_PRIMARY ≠ AppColors.SUCCESS_PRIMARY := by
  constructor
  · decide
  · decide

/-- Claim C3 (amended): semantic color resolution is total; an unrecognized
category resolves exactly as the info category does, and an unrecognized
element yields the info category primary value (INFO_PRIMARY) regardless of
the requested category — not the requested category own primary value. -/
theorem c3_semantic_color_total_info_fallbacks :
    ∀ (semantic_type element : String),
      (semantic_type ∉ (["success", "warning", "error", "info"] : List String) →
        ThemeManager.get_semantic_color semantic_type element
          = ThemeManager.get_semantic_color "info" element)
      ∧ (element ∉ (["primary", "background", "border"] : List String) →
        ThemeManager.get_semantic_color semantic_type element = AppColors.INFO_PRIMARY) := by
  intro t e
  constructor
  · intro h
    simp [List.mem_cons] at h
    obtain ⟨h1, h2, h3, h4⟩ := h
    have b1 : (t == "success") = false := by simp [h1]
    have b2 : (t == "warning") = false := by simp [h2]
    have b3 : (t == "error") = false := by simp [h3]
    have b4 : (t == "info") = false := by simp [h4]
    simp [ThemeManager.get_semantic_color, List.lookup, b1, b2, b3, b4]
  · intro h
    simp [List.mem_cons] at h
    obtain ⟨h1, h2, h3⟩ := h
    have b1 : (e == "primary") = false := by simp [h1]
    have b2 : (e == "background") = false := by simp [h2]
    have b3 : (e == "border") = false := by simp [h3]
    simp only [ThemeManager.get_semantic_color, List.lookup, b1, b2, b3]
    repeat' split
    all_goals simp [List.lookup, b1, b2, b3]

/-- Witness for the amended claim C3 at the unrecognized category bogus and
the unrecognized element bogus. -/
theorem c3_semantic_color_total_info_fallbacks_witness :
    ThemeManager.get_semantic_color "bogus" "border"
        = ThemeManager.get_semantic_color "info" "border"
    ∧ ThemeManager.get_semantic_color "success" "bogus" = AppColors.INFO_PRIMARY :=
  ⟨(c3_semantic_color_total_info_fallbacks "bogus" "border").1 (by decide),
   (c3_semantic_color_total_info_fallbacks "success" "bogus").2 (by decide)⟩

/-- Claim C4, counterexample: creating a button with size tier large and
variant primary yields the plain large style — the effective normal-state
background is BUTTON_DEFAULT, not the primary override ACCENT_BLUE, so the
claim that every size tier merges variant overrides is false. -/
theorem c4_counterexample_large_tier_ignores_variant :
    effectiveValue (ThemeManager.create_button "x" false "large" "primary" true).styleSheet
        none "background-color" = some AppColors.BUTTON_DEFAULT
    ∧ AppColors.BUTTON_DEFAULT ≠ AppColors.ACCENT_BLUE := by
  constructor
  · decide
  · decide

/-- Claim C4 (amended): only the standard size tier merges variant color
overrides on top of the base style (the override replaces the base
background / text / border colors in the effective normal-state style,
while properties the variant does not override, such as padding, keep their
base values); the large, compact and icon tiers ignore the variant
entirely. -/
theorem c4_variant_merge_standard_tier_only :
    (∀ (t : String) (cb : Bool) (e : Bool) (v : String),
      ThemeManager.create_button t cb "large" v e = ThemeManager.create_button t cb "large" "default" e
      ∧ ThemeManager.create_button t cb "compact" v e = ThemeManager.create_button t cb "compact" "default" e
      ∧ ThemeManager.create_button t cb "icon" v e = ThemeManager.create_button t cb "icon" "default" e)
    ∧ effectiveValue (AppStyles.button "primary") none "background-color" = some AppColors.ACCENT_BLUE
    ∧ effectiveValue (AppStyles.button "primary") none "color" = some AppColors.TEXT_WHITE
    ∧ effectiveValue (AppStyles.button "primary") none "border"
        = some (borderSolid AppDimensions.BORDER_WIDTH_STANDARD AppColors.ACCENT_BLUE)
    ∧ effectiveValue (AppStyles.button "primary") none "padding" = some AppDimensions.PADDING_BUTTON_STANDARD
    ∧ effectiveValue (AppStyles.button "success") none "background-color" = some AppColors.SUCCESS_PRIMARY
    ∧ effectiveValue (AppStyles.button "success") none "color" = some AppColors.TEXT_WHITE
    ∧ effectiveValue (AppStyles.button "success") none "border"
        = some (borderSolid AppDimensions.BORDER_WIDTH_STANDARD AppColors.SUCCESS_BORDER)
    ∧ effectiveValue (AppStyles.button "danger") none "background-color" = some AppColors.ERROR_PRIMARY
    ∧ effectiveValue (AppStyles.button "danger") none "color" = some AppColors.TEXT_WHITE
    ∧ effectiveValue (AppStyles.button "danger") none "border"
        = some (borderSolid AppDimensions.BORDER_WIDTH_STANDARD AppColors.ERROR_BORDER)
    ∧ effectiveValue (AppStyles.button "default") none "background-color" = some AppColors.BUTTON_DEFAULT := by
  refine ⟨fun t cb e v => ⟨rfl, rfl, rfl⟩, ?_, ?_, ?_, ?_, ?_, ?_, ?_, ?_, ?_, ?_, ?_⟩
  all_goals decide

/-- Claim C5, counterexample: with base size 3 and density scale 1.9 the
scaled side is int(5.7) = 5 by truncation, while round(3 * 1.9) = 6, and the
rendered bitmap takes side 5 — so side length round(baseSize * densityScale)
is false in general. -/
theorem c5_counterexample_truncation_not_round :
    (IconManager.get_scaled_size 3 1 (some (19/10))).width = 5
    ∧ (round ((3:ℚ) * (19/10)) : Int) = 6
    ∧ ∃ i, IconManager.create_svg_icon demoTemplate "#000000"
          (IconManager.get_scaled_size 3 1 (some (19/10))) = some i
        ∧ i.normal.width = 5 := by
  have hq : ((3:Int):ℚ) * ((1:ℚ) * (19/10)) = 57/10 := by push_cast; norm_num
  have hp : pyInt (((3:Int):ℚ) * ((1:ℚ) * (19/10))) = 5 := by
    rw [hq, pyInt, if_pos (by norm_num)]
    rw [Int.floor_eq_iff]
    norm_num
  have hw : (IconManager.get_scaled_size 3 1 (some (19/10))).width = 5 := by
    simp only [IconManager.get_scaled_size]
    exact hp
  refine ⟨hw, ?_, ?_⟩
  · rw [round_eq]
    have h1 : ((3:ℚ) * (19/10) + 1/2) = 62/10 := by norm_num
    rw [h1, Int.floor_eq_iff]
    norm_num
  · obtain ⟨i, hi, hnw, _⟩ := create_svg_icon_total demoTemplate "#000000"
      (IconManager.get_scaled_size 3 1 (some (19/10))) (by decide)
    exact ⟨i, hi, by rw [hnw]; exact hw⟩

/-- Claim C5 (amended): for every base size and density scale (1.0 when no
display density is available), the scaled side length is the TRUNCATION
int(baseSize * densityScale) toward zero, not round, and the four rendered
state bitmaps are square with that side length, identical across the four
states. -/
theorem c5_scaled_icons_square_truncated_side :
    ∀ (base_size : Int) (scale_factor : ℚ) (density : Option ℚ) (t : List Chunk) (c : String),
      templateOk t = true →
      IconManager.get_scaled_size base_size scale_factor density
          = ⟨pyInt (base_size * (scale_factor * density.getD 1)),
             pyInt (base_size * (scale_factor * density.getD 1))⟩
      ∧ ∃ i, IconManager.create_svg_icon t c
            (IconManager.get_scaled_size base_size scale_factor density) = some i
          ∧ i.normal.width = pyInt (base_size * (scale_factor * density.getD 1))
          ∧ i.normal.height = pyInt (base_size * (scale_factor * density.getD 1))
          ∧ i.hover.width = pyInt (base_size * (scale_factor * density.getD 1))
          ∧ i.hover.height = pyInt (base_size * (scale_factor * density.getD 1))
          ∧ i.pressed.width = pyInt (base_size * (scale_factor * density.getD 1))
          ∧ i.pressed.height = pyInt (base_size * (scale_factor * density.getD 1))
          ∧ i.disabled.width = pyInt (base_size * (scale_factor * density.getD 1))
          ∧ i.disabled.height = pyInt (base_size * (scale_factor * density.getD 1)) := by
  intro base scale density t c h
  have hsz : IconManager.get_scaled_size base scale density
      = ⟨pyInt (base * (scale * density.getD 1)), pyInt (base * (scale * density.getD 1))⟩ := by
    cases density with
    | none => simp [IconManager.get_scaled_size, mul_one]
    | some d => simp [IconManager.get_scaled_size]
  refine ⟨hsz, ?_⟩
  obtain ⟨i, hi, h1, h2, h3, h4, h5, h6, h7, h8⟩ :=
    create_svg_icon_total t c (IconManager.get_scaled_size base scale density) h
  rw [hsz] at h1 h2 h3 h4 h5 h6 h7 h8
  exact ⟨i, hi, h1, h2, h3, h4, h5, h6, h7, h8⟩

/-- Witness for the amended claim C5: base size 16 at density 1.25 renders
at side 20. -/
theorem c5_scaled_icons_square_truncated_side_witness :
    (IconManager.get_scaled_size 16 1 (some (5/4))).width = 20
    ∧ ∃ i, IconManager.create_svg_icon demoTemplate "#000000"
          (IconManager.get_scaled_size 16 1 (some (5/4))) = some i
        ∧ i.normal.width = 20 := by
  have h := c5_scaled_icons_square_truncated_side 16 1 (some (5/4)) demoTemplate "#000000" (by decide)
  obtain ⟨hsz, i, hi, hw, _⟩ := h
  have hv : pyInt (((16:Int):ℚ) * ((1:ℚ) * (Option.getD (some ((5:ℚ)/4)) 1))) = 20 := by
    have he : ((16:Int):ℚ) * ((1:ℚ) * (Option.getD (some ((5:ℚ)/4)) 1)) = ((20:Int):ℚ) := by
      simp only [Option.getD]
      push_cast
      norm_num
    rw [he, pyInt_intCast]
  constructor
  · rw [hsz]
    exact hv
  · exact ⟨i, hi, by rw [hw]; exact hv⟩

/-- Claim C6: four-state icon generation is atomic — on a well-formed
template all four state images are produced (each with the requested
dimensions), and on a template that fails to format the whole call fails and
no icon is returned at all. -/
theorem c6_four_state_generation_atomic :
    ∀ (t : List Chunk) (c : String) (s : QSize),
      (templateOk t = true →
        ∃ i, IconManager.create_svg_icon t c s = some i
          ∧ i.normal.width = s.width ∧ i.normal.height = s.height
          ∧ i.hover.width = s.width ∧ i.hover.height = s.height
          ∧ i.pressed.width = s.width ∧ i.pressed.height = s.height
          ∧ i.disabled.width = s.width ∧ i.disabled.height = s.height)
      ∧ (templateOk t = false → IconManager.create_svg_icon t c s = none) := by
  intro t c s
  constructor
  · intro h
    exact create_svg_icon_total t c s h
  · intro h
    simp [IconManager.create_svg_icon, templateOk_none t c h]

/-- Witness for claim C6: a well-formed template yields all four states at
the requested size, and a template whose placeholder is not named color
yields nothing at all. -/
theorem c6_four_state_generation_atomic_witness :
    (∃ i, IconManager.create_svg_icon demoTemplate "#000000" ⟨7, 7⟩ = some i
      ∧ i.normal.width = (⟨7, 7⟩ : QSize).width ∧ i.normal.height = (⟨7, 7⟩ : QSize).height
      ∧ i.hover.width = (⟨7, 7⟩ : QSize).width ∧ i.hover.height = (⟨7, 7⟩ : QSize).height
      ∧ i.pressed.width = (⟨7, 7⟩ : QSize).width ∧ i.pressed.height = (⟨7, 7⟩ : QSize).height
      ∧ i.disabled.width = (⟨7, 7⟩ : QSize).width ∧ i.disabled.height = (⟨7, 7⟩ : QSize).height)
    ∧ IconManager.create_svg_icon badTemplate "#000000" ⟨7, 7⟩ = none :=
  ⟨(c6_four_state_generation_atomic demoTemplate "#000000" ⟨7, 7⟩).1 (by decide),
   (c6_four_state_generation_atomic badTemplate "#000000" ⟨7, 7⟩).2 (by decide)⟩

/-- Claim C7: a button created with variant primary and enabled = false has
the disabled-background and disabled-text tokens as its effective background
and text color, overriding the primary variant colors, for every pointer
interaction — a disabled control never takes the hover or pressed
appearance. -/
theorem c7_primary_disabled_overrides_variant :
    ∀ (text : String) (cb : Bool) (i : Interaction),
      buttonStateValue (ThemeManager.create_button text cb "standard" "primary" false) i
          "background-color" = some AppColors.BACKGROUND_DISABLED
      ∧ buttonStateValue (ThemeManager.create_button text cb "standard" "primary" false) i
          "color" = some AppColors.TEXT_DISABLED := by
  intro text cb i
  cases i <;> exact ⟨rfl, rfl⟩

/-- Claim C8: style resolution is deterministic and free of hidden state —
in any two call histories ending with the same request, the last result is
the same, and equals the resolution of that request alone (shown for the
button and notification resolvers the claim cites). -/
theorem c8_resolution_deterministic_stateless :
    ∀ (prev other : List String) (v : String),
      (styleCalls AppStyles.button (prev ++ [v])).getLast?
          = (styleCalls AppStyles.button (other ++ [v])).getLast?
      ∧ (styleCalls AppStyles.button (prev ++ [v])).getLast? = some (AppStyles.button v)
      ∧ (styleCalls AppStyles.notification (prev ++ [v])).getLast?
          = (styleCalls AppStyles.notification (other ++ [v])).getLast?
      ∧ (styleCalls AppStyles.notification (prev ++ [v])).getLast?
          = some (AppStyles.notification v) := by
  intro prev other v
  refine ⟨?_, ?_, ?_, ?_⟩
  all_goals simp [styleCalls]

/-- Claim C9: a variant string outside a category's recognized set does not
fail — the button resolver yields the default style and the notification
resolver yields the info style. -/
theorem c9_unknown_variant_default_fallback :
    ∀ (v : String),
      (v ∉ (["primary", "success", "danger"] : List String) →
        AppStyles.button v = AppStyles.button "default")
      ∧ (v ∉ (["success", "warning", "error", "info"] : List String) →
        AppStyles.notification v = AppStyles.notification "info") := by
  intro v
  constructor
  · intro h
    simp [List.mem_cons] at h
    obtain ⟨h1, h2, h3⟩ := h
    simp [AppStyles.button, h1, h2, h3]
  · intro h
    simp [List.mem_cons] at h
    obtain ⟨h1, h2, h3, h4⟩ := h
    have b1 : (v == "success") = false := by simp [h1]
    have b2 : (v == "warning") = false := by simp [h2]
    have b3 : (v == "error") = false := by simp [h3]
    have b4 : (v == "info") = false := by simp [h4]
    simp [AppStyles.notification, List.lookup, b1, b2, b3, b4]

/-- Witness for claim C9 at the unrecognized variant bogus. -/
theorem c9_unknown_variant_default_fallback_witness :
    AppStyles.button "bogus" = AppStyles.button "default"
    ∧ AppStyles.notification "bogus" = AppStyles.notification "info" :=
  ⟨(c9_unknown_variant_default_fallback "bogus").1 (by decide),
   (c9_unknown_variant_default_fallback "bogus").2 (by decide)⟩

/-- Claim C10: a size-tier string outside small / medium / large / xlarge
does not make icon-button creation fail — the base size falls back to the
medium tier value of 20 pixels (before density scaling) and the creation
succeeds. -/
theorem c10_unknown_size_tier_medium_fallback :
    ∀ (sizeTier icon_name tooltip : String) (density : Option ℚ),
      ThemeManager.size_map.lookup sizeTier = none →
      ThemeManager.icon_button_base_size sizeTier = 20
      ∧ (ThemeManager.create_icon_button appIcons icon_name tooltip sizeTier density).isSome
          = true := by
  intro sizeTier icon_name tooltip density h
  have hbase : ThemeManager.icon_button_base_size sizeTier = 20 := by
    simp [ThemeManager.icon_button_base_size, h, AppDimensions.ICON_SIZE_MEDIUM]
  refine ⟨hbase, ?_⟩
  cases hreg : appIcons.lookup (pyUpper icon_name) with
  | none => simp [ThemeManager.create_icon_button, hreg]
  | some tmpl =>
    obtain ⟨i, hi, _⟩ := create_svg_icon_total tmpl AppColors.ICON_DEFAULT
      (IconManager.get_scaled_size (ThemeManager.icon_button_base_size sizeTier) 1 density)
      (appIcons_lookup_templateOk _ _ hreg)
    simp [ThemeManager.create_icon_button, hreg, hi]

/-- Witness for claim C10 at the unrecognized size tier gigantic. -/
theorem c10_unknown_size_tier_medium_fallback_witness :
    ThemeManager.icon_button_base_size "gigantic" = 20
    ∧ (ThemeManager.create_icon_button appIcons "dropdown_arrow" "" "gigantic" none).isSome
        = true :=
  c10_unknown_size_tier_medium_fallback "gigantic" "dropdown_arrow" "" none (by decide)
